import Mathlib

/-!
Verification of the NgRx shared-state example (user authentication slice).

The development shallowly embeds the code of `src/ngrx-shared-state-example.ts`:
the `UserState` data model, the action creators, the `userReducer` built with
`createReducer`, the selectors, and the effect pipelines of `UserEffects`.
JavaScript object identity (reference equality) is modelled explicitly by
pairing each allocated object with an allocation identifier, since several
properties speak about "same reference" versus "deep equality".

The store runtime (dispatch, subscription delivery) and the memoized-selector
runtime are library code that is not part of this repository's sources; where a
property depends on them they are modelled from the specification's words
(sections 4.1, 4.2, 4.3 and 4.5 of the spec) and marked as such in their doc
comments.
-/

namespace NgrxSpec

/-- A JavaScript object value together with its allocation identifier.
Two objects are "the same reference" exactly when their `ref` fields agree;
`val` is the object's (deep) value. -/
structure JsObj (α : Type) where
  ref : Nat
  val : α
deriving DecidableEq

/-- User record from `user.state.ts` (interface User). -/
structure User where
  id : String
  name : String
  email : String
  role : String
deriving DecidableEq

/-- UserState from `user.state.ts`. `currentUser` holds a reference to a
`User` object or `null` (modelled as `none`); `error` is a string or `null`. -/
structure UserState where
  currentUser : Option (JsObj User)
  isAuthenticated : Bool
  loading : Bool
  error : Option String
deriving DecidableEq

/-- initialUserState from `user.state.ts`. -/
def initialUserState : UserState :=
  { currentUser := none, isAuthenticated := false, loading := false, error := none }

/-- Payload of an action: `createAction` props are either login credentials,
a user object, an error string, or absent. -/
inductive ActionPayload where
  | credentials (username password : String)
  | userPayload (user : JsObj User)
  | errorPayload (error : String)
  | empty
deriving DecidableEq

/-- An NgRx action: a `type` discriminator string (called `kind` in the spec)
plus its payload. -/
structure Action where
  kind : String
  payload : ActionPayload
deriving DecidableEq

namespace UserActions

/-- Action creator `login` from `user.actions.ts`. -/
def login (username password : String) : Action :=
  ⟨"[Auth] Login", .credentials username password⟩

/-- Action creator `loginSuccess` from `user.actions.ts`. -/
def loginSuccess (user : JsObj User) : Action :=
  ⟨"[Auth] Login Success", .userPayload user⟩

/-- Action creator `loginFailure` from `user.actions.ts`. -/
def loginFailure (error : String) : Action :=
  ⟨"[Auth] Login Failure", .errorPayload error⟩

/-- Action creator `logout` from `user.actions.ts`. -/
def logout : Action := ⟨"[Auth] Logout", .empty⟩

/-- Action creator `logoutSuccess` from `user.actions.ts`. -/
def logoutSuccess : Action := ⟨"[Auth] Logout Success", .empty⟩

/-- Action creator `getUserProfile` from `user.actions.ts`. -/
def getUserProfile : Action := ⟨"[User] Get User Profile", .empty⟩

/-- Action creator `getUserProfileSuccess` from `user.actions.ts`. -/
def getUserProfileSuccess (user : JsObj User) : Action :=
  ⟨"[User] Get User Profile Success", .userPayload user⟩

end UserActions

/-- The seven action type strings for which `userReducer` registers an `on`
handler in `user.reducer.ts`. -/
def registeredKinds : List String :=
  ["[Auth] Login", "[Auth] Login Success", "[Auth] Login Failure",
   "[Auth] Logout", "[Auth] Logout Success",
   "[User] Get User Profile", "[User] Get User Profile Success"]

/-- Value-level semantics of `userReducer` from `user.reducer.ts`.
`createReducer` selects the handler whose action type matches `action.kind`
and returns the input state unchanged when none matches. Each handler body is
the object-spread expression of the source. The payload fall-through cases are
unreachable for actions built by the creators (TypeScript's typing couples a
type string with its payload shape). -/
def userReducer (state : UserState) (action : Action) : UserState :=
  if action.kind = "[Auth] Login" then
    { state with loading := true, error := none }
  else if action.kind = "[Auth] Login Success" then
    match action.payload with
    | .userPayload user =>
        { state with currentUser := some user, isAuthenticated := true,
                     loading := false, error := none }
    | _ => state
  else if action.kind = "[Auth] Login Failure" then
    match action.payload with
    | .errorPayload error => { state with loading := false, error := some error }
    | _ => state
  else if action.kind = "[Auth] Logout" then
    { state with loading := true }
  else if action.kind = "[Auth] Logout Success" then
    initialUserState
  else if action.kind = "[User] Get User Profile" then
    { state with loading := true }
  else if action.kind = "[User] Get User Profile Success" then
    match action.payload with
    | .userPayload user => { state with currentUser := some user, loading := false }
    | _ => state
  else
    state

/-- Reference-level semantics of `userReducer`: when a handler matches, its
object-literal body allocates a fresh state object (identifier `fresh`);
when no handler matches, `createReducer` returns the input object itself. -/
def userReducerObj (state : JsObj UserState) (action : Action) (fresh : Nat) :
    JsObj UserState :=
  if action.kind ∈ registeredKinds then ⟨fresh, userReducer state.val action⟩
  else state

/-- Reference equality of two optional object references (JavaScript
identity comparison of a possibly-null object field). -/
def optRefEq {α : Type} : Option (JsObj α) → Option (JsObj α) → Bool
  | none, none => true
  | some x, some y => x.ref == y.ref
  | _, _ => false

/-- Shallow equality of two `UserState` values: every field compared the way
JavaScript compares object properties — `currentUser` by reference,
`isAuthenticated` and `loading` by value, `error` by (string) value. -/
def shallowEqUserState (a b : UserState) : Bool :=
  optRefEq a.currentUser b.currentUser && (a.isAuthenticated == b.isAuthenticated)
    && (a.loading == b.loading) && (a.error == b.error)

/-- Root state shape from `app.state.ts`: the single registered slice is
`user`, owned by `userReducer`, as registered by `StoreModule.forRoot` in
`app.module.ts`. -/
structure AppState where
  user : JsObj UserState
deriving DecidableEq

/-- Modelled from the spec: the State Store of sections 4.1 and 4.2 (the
`@ngrx/store` runtime is not part of this repository's sources). The store
holds the current root state object by reference, and `fresh` is the next
unused allocation identifier. -/
structure Store where
  state : JsObj AppState
  fresh : Nat
deriving DecidableEq

/-- Modelled from the spec: `dispatch` per sections 4.2 and 4.5. The slice
reducer computes the next `user` slice; if the slice value is unchanged by
reference or shallow equality the store returns the same overall state object.
The returned flag reports whether a subscriber to the `user` slice (whose
last-delivered value is the pre-dispatch slice object, compared by reference
per the distinct-until-changed rule of section 4.5) is notified. `dispatch`
is total: it never throws for an unrecognized action kind. -/
def dispatch (store : Store) (action : Action) : Store × Bool :=
  let s := store.state.val.user
  let s1 := userReducerObj s action store.fresh
  if s1.ref == s.ref || shallowEqUserState s1.val s.val then
    (store, false)
  else
    (⟨⟨store.fresh + 1, ⟨s1⟩⟩, store.fresh + 2⟩, true)

/-- Dispatch a list of actions in order, counting how many of them delivered a
notification to the `user`-slice subscriber. -/
def dispatchMany (store : Store) (actions : List Action) : Store × Nat :=
  match actions with
  | [] => (store, 0)
  | a :: rest =>
      let r := dispatch store a
      let r2 := dispatchMany r.1 rest
      (r2.1, (cond r.2 1 0) + r2.2)

/-- Store at process start: the root object holds the `user` slice initialized
to `initialUserState` (allocation identifiers 0 and 1 are taken). -/
def initialStore : Store := ⟨⟨1, ⟨⟨0, initialUserState⟩⟩⟩, 2⟩

/-- Fold `userReducerObj` over an action sequence, threading the allocation
counter: replaying a dispatched sequence through the slice reducer. -/
def replayObj (actions : List Action) (s : JsObj UserState) (fresh : Nat) :
    JsObj UserState :=
  match actions with
  | [] => s
  | a :: rest => replayObj rest (userReducerObj s a fresh) (fresh + 1)

/-- Outcome of one invocation of `authService.login`: the observable either
emits a user object or errors, with `error.message` carried as a string. -/
abbrev LoginOutcome := Except String (JsObj User)

/-- Actions emitted by one invocation of the inner pipeline of
`UserEffects.login$` (`map` to `loginSuccess`, `catchError` to a single
`loginFailure` carrying `error.message`), given the outcome of
`authService.login`. The `catchError` sits on the inner observable, so an
error is converted to this one action and never escapes to the outer
effect stream. -/
def loginEffectInvocation (outcome : LoginOutcome) : List Action :=
  match outcome with
  | .ok user => [UserActions.loginSuccess user]
  | .error e => [UserActions.loginFailure e]

/-- Follow-up actions produced by `UserEffects.login$` over a sequence of
settled invocations, in settlement order: each settled invocation contributes
the output of its inner pipeline and the effect stream then continues with the
remaining invocations (errors are isolated per invocation by the inner
`catchError`, so the orchestrator and the other effects keep running). -/
def loginEffectRun (outcomes : List LoginOutcome) : List Action :=
  match outcomes with
  | [] => []
  | o :: rest => loginEffectInvocation o ++ loginEffectRun rest

/-- Actions emitted by one invocation of the inner pipeline of
`UserEffects.logout$`, given the outcome of `authService.logout`: `map` emits
`logoutSuccess`, and the `catchError` branch also emits `logoutSuccess`
("Always logout even if API fails"). -/
def logoutEffectInvocation (outcome : Except String Unit) : List Action :=
  match outcome with
  | .ok _ => [UserActions.logoutSuccess]
  | .error _ => [UserActions.logoutSuccess]

/-- Interleaving events seen by `UserEffects.login$`: a trigger is a dispatched
`login` action entering the effect through `ofType`; a settlement is the
completion (or error) of the asynchronous work of the invocation started by
the `i`-th trigger (0-based). -/
inductive LoginEvent where
  | trigger (username password : String)
  | settle (invocation : Nat) (outcome : LoginOutcome)

/-- Semantics of the `mergeMap` operator used by `UserEffects.login$`, run over
an event interleaving with `n` triggers already seen: `mergeMap` starts every
inner observable immediately on its trigger and keeps all of them active
concurrently, so the settlement of any already-started invocation emits its
follow-up actions at settlement time, in settlement order; no invocation is
cancelled when a later trigger arrives. -/
def mergeMapLoginRun (events : List LoginEvent) (n : Nat) : List Action :=
  match events with
  | [] => []
  | .trigger _ _ :: rest => mergeMapLoginRun rest (n + 1)
  | .settle i outcome :: rest =>
      if i < n then loginEffectInvocation outcome ++ mergeMapLoginRun rest n
      else mergeMapLoginRun rest n

/-- Projection of the feature selector `selectUserState` from
`user.selectors.ts`: pick the `user` slice object out of the root state. -/
def selectUserStateProj (s : AppState) : JsObj UserState := s.user

/-- Projection function of `selectCurrentUser` from `user.selectors.ts`. -/
def selectCurrentUserProj (state : UserState) : Option (JsObj User) :=
  state.currentUser

/-- Projection function of `selectUserRole` from `user.selectors.ts`:
`user?.role`, which is undefined (modelled `none`) when the user is null. -/
def selectUserRoleProj (user : Option (JsObj User)) : Option String :=
  user.map (fun u => u.val.role)

/-- Modelled from the spec: a memoized selector node per section 4.3 (the
`createSelector` runtime is not part of this repository's sources). The cache
holds the last-seen upstream input together with the last-computed output. -/
structure MemoCell (α β : Type) where
  cache : Option (α × β)
deriving DecidableEq

/-- Modelled from the spec: reading a selector node per section 4.3. The
projection re-runs only when the upstream input differs from the cached one
under the node's input comparison (reference inequality for objects);
otherwise the cached output is returned without recomputation. The last
component counts how many times the projection ran during this read (0 or 1). -/
def memoRead {α β : Type} (inputEq : α → α → Bool) (proj : α → β)
    (cell : MemoCell α β) (input : α) : β × MemoCell α β × Nat :=
  match cell.cache with
  | some (i, o) =>
      if inputEq i input then (o, cell, 0)
      else (proj input, ⟨some (input, proj input)⟩, 1)
  | none => (proj input, ⟨some (input, proj input)⟩, 1)

/-- Caches of the selector chain feeding `selectUserRole`:
`selectCurrentUser`'s node (upstream input: the `user` slice object, compared
by reference) and `selectUserRole`'s node (upstream input: the `currentUser`
object reference or null). -/
structure SelectorGraphState where
  currentUserCell : MemoCell (JsObj UserState) (Option (JsObj User))
  roleCell : MemoCell (Option (JsObj User)) (Option String)
deriving DecidableEq

/-- Selector caches before any read: every node is cold. -/
def initialSelectorGraph : SelectorGraphState := ⟨⟨none⟩, ⟨none⟩⟩

/-- Read `selectUserRole` against a root state: evaluate the memoized
`selectCurrentUser` node on the `user` slice object, then the memoized
`selectUserRole` node on its output. Returns the derived role, the updated
caches, and the recomputation counts of the two projection functions
(`selectCurrentUser`'s and `selectUserRole`'s) for this read. -/
def readSelectUserRole (s : AppState) (g : SelectorGraphState) :
    Option String × SelectorGraphState × Nat × Nat :=
  let r1 := memoRead (fun a b => a.ref == b.ref)
    (fun o => selectCurrentUserProj o.val)
    g.currentUserCell (selectUserStateProj s)
  let r2 := memoRead optRefEq selectUserRoleProj g.roleCell r1.1
  (r2.1, ⟨r1.2.1, r2.2.1⟩, r1.2.2, r2.2.2)

/-- Read `selectUserRole` `m` times in a row against the same root state,
accumulating the recomputation counts of the two projections. -/
def readTimes (s : AppState) (g : SelectorGraphState) :
    Nat → SelectorGraphState × Nat × Nat
  | 0 => (g, 0, 0)
  | Nat.succ m =>
      let r := readSelectUserRole s g
      let rest := readTimes s r.2.1 m
      (rest.1, r.2.2.1 + rest.2.1, r.2.2.2 + rest.2.2)

/-- User object of the login scenario: the external login resolves with user
id "1" and name "Alice" (the remaining fields of the `User` interface are left
empty), allocated at identifier 100. -/
def aliceUser : JsObj User := ⟨100, ⟨"1", "Alice", "", ""⟩⟩

/-- A second user object, allocated at identifier 101, used as the completion
of an overlapping login invocation. -/
def bobUser : JsObj User := ⟨101, ⟨"2", "Bob", "", ""⟩⟩

/-- Action sequence of the login scenario: the dispatched login request
followed by the follow-up action the `login$` effect emits once the external
asynchronous login resolves with `aliceUser`. -/
def c4Actions : List Action :=
  UserActions.login "a" "b" :: loginEffectInvocation (Except.ok aliceUser)

/-- An action whose kind is none of the seven registered kinds. -/
def noopAction : Action := ⟨"[Noop] Tick", ActionPayload.empty⟩

/-- A store whose `user` slice already has `loading` true and `error` null. -/
def c3Store : Store :=
  ⟨⟨1, ⟨⟨0, { currentUser := none, isAuthenticated := false,
              loading := true, error := none }⟩⟩⟩, 2⟩

/-- Event interleaving for overlapping login triggers: T1 and T2 are both
dispatched before either invocation settles; T2's work settles first (with
`bobUser`), T1's work settles last (with `aliceUser`). -/
def c6Events : List LoginEvent :=
  [LoginEvent.trigger "a" "b", LoginEvent.trigger "c" "d",
   LoginEvent.settle 1 (Except.ok bobUser),
   LoginEvent.settle 0 (Except.ok aliceUser)]

/-- Whole-state evolution at value level: fold `userReducer` over an action
sequence starting from `initialUserState`. -/
def runActions (actions : List Action) : UserState :=
  actions.foldl userReducer initialUserState

lemma userReducer_unregistered (state : UserState) (action : Action)
    (h : action.kind ∉ registeredKinds) : userReducer state action = state := by
  simp only [registeredKinds, List.mem_cons, List.not_mem_nil, or_false,
    not_or] at h
  obtain ⟨h1, h2, h3, h4, h5, h6, h7⟩ := h
  simp [userReducer, h1, h2, h3, h4, h5, h6, h7]

lemma userReducerObj_val (state : JsObj UserState) (action : Action) (fresh : Nat) :
    (userReducerObj state action fresh).val = userReducer state.val action := by
  unfold userReducerObj
  split
  · rfl
  · rename_i h
    exact (userReducer_unregistered state.val action h).symm

lemma replayObj_val_eq (actions : List Action) :
    ∀ (s t : JsObj UserState) (f g : Nat), s.val = t.val →
      (replayObj actions s f).val = (replayObj actions t g).val := by
  induction actions with
  | nil => intro s t f g h; simpa [replayObj] using h
  | cons a rest ih =>
      intro s t f g h
      apply ih
      rw [userReducerObj_val, userReducerObj_val, h]

lemma userReducerObj_unregistered (s : JsObj UserState) (k : String)
    (p : ActionPayload) (fresh : Nat) (h : k ∉ registeredKinds) :
    userReducerObj s ⟨k, p⟩ fresh = s := by
  unfold userReducerObj
  simp [h]

lemma dispatch_unregistered (store : Store) (k : String) (p : ActionPayload)
    (h : k ∉ registeredKinds) : dispatch store ⟨k, p⟩ = (store, false) := by
  simp [dispatch, userReducerObj_unregistered _ _ _ _ h]

lemma optRefEq_refl {α : Type} (x : Option (JsObj α)) : optRefEq x x = true := by
  cases x <;> simp [optRefEq]

lemma dispatch_of_shallowEq (store : Store) (a : Action)
    (h : shallowEqUserState (userReducerObj store.state.val.user a store.fresh).val
      store.state.val.user.val = true) :
    dispatch store a = (store, false) := by
  simp [dispatch, h]

lemma shallowEq_login (s : UserState) (u p : String) (hl : s.loading = true)
    (he : s.error = none) :
    shallowEqUserState (userReducer s (UserActions.login u p)) s = true := by
  simp [userReducer, UserActions.login, shallowEqUserState, optRefEq_refl, hl, he]

lemma memoRead_stable {α β : Type} (inputEq : α → α → Bool) (proj : α → β)
    (hrefl : ∀ x, inputEq x x = true) (cell : MemoCell α β) (input : α) :
    memoRead inputEq proj (memoRead inputEq proj cell input).2.1 input
      = ((memoRead inputEq proj cell input).1,
         (memoRead inputEq proj cell input).2.1, 0) := by
  unfold memoRead
  rcases cell with ⟨cache⟩
  rcases cache with _ | ⟨i, o⟩
  · simp [hrefl]
  · by_cases hio : inputEq i input = true <;> simp [hio, hrefl]

lemma readSelectUserRole_stable (s : AppState) (g : SelectorGraphState) :
    readSelectUserRole s (readSelectUserRole s g).2.1
      = ((readSelectUserRole s g).1, (readSelectUserRole s g).2.1, 0, 0) := by
  have hrefl1 : ∀ x : JsObj UserState, (x.ref == x.ref) = true := by
    intro x; simp
  simp only [readSelectUserRole]
  rw [memoRead_stable _ _ hrefl1]
  simp only []
  rw [memoRead_stable _ _ optRefEq_refl]

lemma readTimes_after_first (s : AppState) (g : SelectorGraphState) (m : Nat) :
    readTimes s (readSelectUserRole s g).2.1 m
      = ((readSelectUserRole s g).2.1, 0, 0) := by
  induction m with
  | zero => rfl
  | succ k ih =>
      unfold readTimes
      rw [readSelectUserRole_stable]
      simpa using ih

lemma readTimes_totals (s : AppState) (g : SelectorGraphState) (m : Nat)
    (hm : 1 ≤ m) : (readTimes s g m).2 = (readSelectUserRole s g).2.2 := by
  rcases m with _ | k
  · omega
  · simp only [readTimes]
    rw [readTimes_after_first]
    simp

lemma dispatchMany_noop (k : Nat) :
    dispatchMany initialStore (List.replicate k noopAction) = (initialStore, 0) := by
  induction k with
  | zero => rfl
  | succ n ih =>
      have hmem : noopAction.kind ∉ registeredKinds := by decide
      simp only [List.replicate, dispatchMany]
      rw [show dispatch initialStore noopAction = (initialStore, false) from
        dispatch_unregistered initialStore _ _ hmem]
      simpa using ih

lemma userReducer_inv (s : UserState) (a : Action)
    (h : s.isAuthenticated = true → s.currentUser ≠ none) :
    (userReducer s a).isAuthenticated = true →
      (userReducer s a).currentUser ≠ none := by
  unfold userReducer
  rcases a with ⟨k, p⟩
  cases p <;> split_ifs <;> simp_all [initialUserState]

lemma runActions_inv (actions : List Action) :
    ∀ (s : UserState), (s.isAuthenticated = true → s.currentUser ≠ none) →
      ((actions.foldl userReducer s).isAuthenticated = true →
        (actions.foldl userReducer s).currentUser ≠ none) := by
  induction actions with
  | nil => intro s h; simpa using h
  | cons a rest ih => intro s h; exact ih _ (userReducer_inv s a h)

/-- C1: deterministic replay. One application of the `user`-slice reducer to
the same state object and action yields deeply equal outputs no matter which
fresh allocation identifier each run draws, and folding the reducer over any
action sequence from `initialUserState` twice (with arbitrary, possibly
different, allocation seeds) yields deeply equal final states. -/
theorem c1_deterministic_replay :
    ∀ (actions : List Action) (s : JsObj UserState) (a : Action) (f g n m : Nat),
      (userReducerObj s a f).val = (userReducerObj s a g).val ∧
      (replayObj actions ⟨n, initialUserState⟩ f).val
        = (replayObj actions ⟨m, initialUserState⟩ g).val := by
  intro actions s a f g n m
  exact ⟨by rw [userReducerObj_val, userReducerObj_val],
    replayObj_val_eq actions _ _ f g rfl⟩

/-- C2: unrecognized-action no-op. For every action whose kind is not one of
the seven registered kinds, `userReducer` returns its input state object
itself (same reference, same value), `dispatch` does not change the state
reference, and the `user`-slice subscriber receives zero notifications
(`dispatch` is total, so it does not throw). -/
theorem c2_unrecognized_action_noop :
    ∀ (store : Store) (s : JsObj UserState) (k : String) (p : ActionPayload)
      (fresh : Nat), k ∉ registeredKinds →
      userReducerObj s ⟨k, p⟩ fresh = s ∧
      userReducer s.val ⟨k, p⟩ = s.val ∧
      dispatch store ⟨k, p⟩ = (store, false) := by
  intro store s k p fresh h
  exact ⟨userReducerObj_unregistered s k p fresh h,
    userReducer_unregistered s.val ⟨k, p⟩ h,
    dispatch_unregistered store k p h⟩

/-- C2 witness: dispatching the concrete unregistered action kind
"[Noop] Tick" on the initial store leaves the store untouched and notifies
nobody. -/
theorem c2_unrecognized_action_noop_witness :
    ("[Noop] Tick" ∉ registeredKinds) ∧
    dispatch initialStore ⟨"[Noop] Tick", ActionPayload.empty⟩
      = (initialStore, false) :=
  ⟨by decide,
    (c2_unrecognized_action_noop initialStore ⟨0, initialUserState⟩ "[Noop] Tick"
      ActionPayload.empty 5 (by decide)).2.2⟩

/-- C3: no-change dispatch preserves the state object. If the slice reducer's
output is shallow-equal to the current slice value, `dispatch` returns the
same store (same state object reference) and no notification; in particular
dispatching the login action when `loading` is already true and `error` is
already null leaves the state reference unchanged. -/
theorem c3_no_change_dispatch_preserves_state :
    (∀ (store : Store) (a : Action),
        shallowEqUserState (userReducerObj store.state.val.user a store.fresh).val
          store.state.val.user.val = true →
        dispatch store a = (store, false)) ∧
    (∀ (store : Store) (u p : String),
        store.state.val.user.val.loading = true →
        store.state.val.user.val.error = none →
        dispatch store (UserActions.login u p) = (store, false)) := by
  constructor
  · exact fun store a h => dispatch_of_shallowEq store a h
  · intro store u p hl he
    apply dispatch_of_shallowEq
    rw [userReducerObj_val]
    exact shallowEq_login _ u p hl he

/-- C3 witness: on a concrete store whose slice already has `loading` true and
`error` null, dispatching a login action returns the identical store. -/
theorem c3_no_change_dispatch_preserves_state_witness :
    c3Store.state.val.user.val.loading = true ∧
    c3Store.state.val.user.val.error = none ∧
    dispatch c3Store (UserActions.login "x" "y") = (c3Store, false) :=
  ⟨rfl, rfl, c3_no_change_dispatch_preserves_state.2 c3Store "x" "y" rfl rfl⟩

/-- C4 counterexample: in the login scenario (login request dispatched from
the initial state, then the effect's success follow-up for Alice), the
`user`-slice subscriber receives two notifications, not exactly one: the
login request itself already changes the slice (it sets `loading`), and the
success action changes it again. -/
theorem c4_login_scenario_counterexample :
    (dispatchMany initialStore c4Actions).2 = 2 ∧
    ¬(dispatchMany initialStore c4Actions).2 = 1 := by
  decide

/-- C4 amended: the login scenario ends with the slice holding Alice's user
object and `isAuthenticated` true, and over the whole flow exactly two
subscriber notifications are delivered for the `user` slice (one for the
login request, which sets `loading`, and one for the success action). -/
theorem c4_login_scenario_amended :
    (dispatchMany initialStore c4Actions).1.state.val.user.val.currentUser
      = some aliceUser ∧
    (dispatchMany initialStore c4Actions).1.state.val.user.val.isAuthenticated
      = true ∧
    (dispatchMany initialStore c4Actions).2 = 2 :=
  ⟨rfl, rfl, rfl⟩

/-- C5: effect fault isolation. When `authService.login` errors, the `login$`
invocation emits exactly one `loginFailure` action carrying the error's
message; the effect stream continues past the failed invocation (the run over
a concatenation of settled invocations is the concatenation of the runs, so
no error terminates the orchestrator or any later invocation). -/
theorem c5_effect_fault_isolation :
    ∀ (e : String) (rest xs ys : List LoginOutcome),
      loginEffectInvocation (Except.error e) = [UserActions.loginFailure e] ∧
      loginEffectRun (Except.error e :: rest)
        = UserActions.loginFailure e :: loginEffectRun rest ∧
      loginEffectRun (xs ++ ys) = loginEffectRun xs ++ loginEffectRun ys := by
  intro e rest xs ys
  refine ⟨rfl, rfl, ?_⟩
  induction xs with
  | nil => rfl
  | cons o os ih => simp [loginEffectRun, ih]

/-- C6 counterexample: with triggers T1 then T2 both dispatched before either
settles and T1's work settling last, T1's completion still produces a
follow-up action (it appears in the effect's output), and the output is not
just T2's completion — `login$` is built with `mergeMap`, not a supersede
operator. -/
theorem c6_supersede_counterexample :
    UserActions.loginSuccess aliceUser ∈ mergeMapLoginRun c6Events 0 ∧
    mergeMapLoginRun c6Events 0 ≠ [UserActions.loginSuccess bobUser] := by
  decide

/-- C6 amended: `login$` uses the concurrent (`mergeMap`) strategy: every
triggered invocation's completion is observed as a follow-up action, in
settlement order; a trigger dispatched while earlier work is outstanding
cancels nothing, so T1's completion arriving after T2's still produces its
follow-up dispatch. -/
theorem c6_concurrent_mergemap_amended :
    mergeMapLoginRun c6Events 0
      = [UserActions.loginSuccess bobUser, UserActions.loginSuccess aliceUser] :=
  rfl

/-- C7: selector memoization. First conjunct: after any read of
`selectUserRole`, any number of further reads against the same root state
recompute both projections zero times and leave the caches unchanged. Second
conjunct: over any m ≥ 1 consecutive reads of a fixed state, the total
recomputation counts equal those of the first read alone — so each projection
runs at most once per state change, and exactly once when its upstream input
changed. Third conjunct, concretely: dispatching any number of unregistered
actions leaves the initial store untouched, reads after them recompute
nothing, and after a dispatch that changes the `currentUser` dependency the
two projections are recomputed exactly once over any m ≥ 1 reads. -/
theorem c7_selector_memoization :
    (∀ (s : AppState) (g : SelectorGraphState) (m : Nat),
        readTimes s (readSelectUserRole s g).2.1 m
          = ((readSelectUserRole s g).2.1, 0, 0)) ∧
    (∀ (s : AppState) (g : SelectorGraphState) (m : Nat), 1 ≤ m →
        (readTimes s g m).2 = (readSelectUserRole s g).2.2) ∧
    (∀ (k m : Nat), 1 ≤ m →
        dispatchMany initialStore (List.replicate k noopAction)
          = (initialStore, 0) ∧
        (readTimes initialStore.state.val
            (readSelectUserRole initialStore.state.val initialSelectorGraph).2.1
            m).2 = (0, 0) ∧
        (readTimes (dispatch initialStore
              (UserActions.getUserProfileSuccess aliceUser)).1.state.val
            (readSelectUserRole initialStore.state.val initialSelectorGraph).2.1
            m).2 = (1, 1)) := by
  refine ⟨fun s g m => readTimes_after_first s g m,
    fun s g m hm => readTimes_totals s g m hm, ?_⟩
  intro k m hm
  refine ⟨dispatchMany_noop k, ?_, ?_⟩
  · rw [readTimes_totals _ _ m hm]
    rfl
  · rw [readTimes_totals _ _ m hm]
    rfl

/-- C7 witness: two no-op dispatches and three reads recompute nothing; three
reads after the profile-success dispatch recompute each projection once. -/
theorem c7_selector_memoization_witness :
    dispatchMany initialStore (List.replicate 2 noopAction) = (initialStore, 0) ∧
    (readTimes initialStore.state.val
        (readSelectUserRole initialStore.state.val initialSelectorGraph).2.1
        3).2 = (0, 0) ∧
    (readTimes (dispatch initialStore
          (UserActions.getUserProfileSuccess aliceUser)).1.state.val
        (readSelectUserRole initialStore.state.val initialSelectorGraph).2.1
        3).2 = (1, 1) :=
  c7_selector_memoization.2.2 2 3 (by decide)

/-- C8: authentication implies a user. Every state reachable from
`initialUserState` by folding `userReducer` over any action sequence
satisfies: `isAuthenticated` true implies `currentUser` is not null.
Moreover the only transition that turns `isAuthenticated` from false to true
is a `loginSuccess` action, which simultaneously stores its (non-null) user,
and the `logoutSuccess` handler resets every state to `initialUserState`. -/
theorem c8_auth_implies_user :
    (∀ (actions : List Action),
        (runActions actions).isAuthenticated = true →
          (runActions actions).currentUser ≠ none) ∧
    (∀ (s : UserState) (a : Action),
        s.isAuthenticated = false → (userReducer s a).isAuthenticated = true →
          ∃ u, a = UserActions.loginSuccess u ∧
            (userReducer s a).currentUser = some u) ∧
    (∀ (s : UserState), userReducer s UserActions.logoutSuccess
        = initialUserState) := by
  refine ⟨?_, ?_, fun s => rfl⟩
  · intro actions
    exact runActions_inv actions initialUserState (by simp [initialUserState])
  · intro s a hfalse hauth
    rcases a with ⟨k, p⟩
    cases p with
    | userPayload u =>
        by_cases hk : k = "[Auth] Login Success"
        · subst hk
          exact ⟨u, rfl, rfl⟩
        · exfalso
          unfold userReducer at hauth
          split_ifs at hauth <;> simp_all [initialUserState]
    | credentials un pw =>
        exfalso
        unfold userReducer at hauth
        split_ifs at hauth <;> simp_all [initialUserState]
    | errorPayload e =>
        exfalso
        unfold userReducer at hauth
        split_ifs at hauth <;> simp_all [initialUserState]
    | empty =>
        exfalso
        unfold userReducer at hauth
        split_ifs at hauth <;> simp_all [initialUserState]

/-- C8 witness: after dispatching a concrete `loginSuccess`, the reachable
state is authenticated and indeed holds a non-null user. -/
theorem c8_auth_implies_user_witness :
    (runActions [UserActions.loginSuccess aliceUser]).isAuthenticated = true ∧
    (runActions [UserActions.loginSuccess aliceUser]).currentUser ≠ none :=
  ⟨rfl, c8_auth_implies_user.1 [UserActions.loginSuccess aliceUser] rfl⟩

/-- C9: login-failure frame. For every state and error string, the
`loginFailure` handler produces exactly the input state with `loading` set to
false and `error` set to the message; `currentUser` and `isAuthenticated` are
untouched, so a previously authenticated user stays authenticated. -/
theorem c9_login_failure_frame :
    ∀ (s : UserState) (e : String),
      userReducer s (UserActions.loginFailure e)
        = { s with loading := false, error := some e } ∧
      (userReducer s (UserActions.loginFailure e)).currentUser = s.currentUser ∧
      (userReducer s (UserActions.loginFailure e)).isAuthenticated
        = s.isAuthenticated :=
  fun _ _ => ⟨rfl, rfl, rfl⟩

/-- C10: logout always completes. Whatever the outcome of
`authService.logout`, the `logout$` invocation emits exactly one
`logoutSuccess` follow-up, and the `logoutSuccess` handler maps every prior
state to `initialUserState`, which is unauthenticated. -/
theorem c10_logout_always_completes :
    ∀ (o : Except String Unit) (s : UserState),
      logoutEffectInvocation o = [UserActions.logoutSuccess] ∧
      userReducer s UserActions.logoutSuccess = initialUserState ∧
      (userReducer s UserActions.logoutSuccess).isAuthenticated = false := by
  intro o s
  refine ⟨?_, rfl, rfl⟩
  cases o <;> rfl

end NgrxSpec
